import Mathlib

/-
Verification development for scripts/linecount.py, a tool that walks a
directory tree and classifies each line of qualifying source files as
code, comment, or blank, then reports aggregate counts by extension.

Lines and comment delimiters are modelled as lists of characters, since
Python string indexing and slicing are character-based.  The per-file
classifier `count_file` is embedded as a per-line step function
`classifyLine` (the body of the `for line in f` loop) folded over the
file's lines by `classify`/`count_file`.
-/

/-- Verdict assigned to one physical line by the classifier. -/
inductive LineVerdict
  | code
  | comment
  | blank
deriving DecidableEq, Repr

/-- Shorthand turning a string literal into its character list. -/
def cs (s : String) : List Char := s.data

/-- Models Python str.strip with no argument: remove leading and trailing
whitespace characters. -/
def stripChars (l : List Char) : List Char :=
  ((l.dropWhile Char.isWhitespace).reverse.dropWhile Char.isWhitespace).reverse

/-- Index of the first occurrence of `pat` as a contiguous sublist of `l`,
models Python str.find (which returns -1, modelled as `none`, when absent;
an empty pattern is found at index 0, as in Python). -/
def firstIdxOf (pat : List Char) : List Char → Option Nat
  | [] => if pat.isEmpty then some 0 else none
  | c :: rest =>
    if pat.isPrefixOf (c :: rest) then some 0
    else (firstIdxOf pat rest).map (· + 1)

/-- A comment specification: the `line` and `block` entries of one registry
value (`spec["line"]` and `spec["block"]` in the source). -/
structure CommentSpec where
  line : List (List Char)
  block : List (List Char × List Char)
deriving DecidableEq, Repr

/-- The single quote character, written via its code point. -/
def squote : Char := Char.ofNat 39

/-- Python triple-quote delimiter of single quotes. -/
def tripleSingle : List Char := [squote, squote, squote]

/-- Python triple-quote delimiter of double quotes. -/
def tripleDouble : List Char := cs "\"\"\""

/-- The extension-keyed registry SPEC_BY_EXT from the source. -/
def SPEC_BY_EXT : List (String × CommentSpec) :=
  [ (".py", ⟨[cs "#"], [(tripleSingle, tripleSingle), (tripleDouble, tripleDouble)]⟩),
    (".js", ⟨[cs "//"], [(cs "/*", cs "*/")]⟩),
    (".jsx", ⟨[cs "//"], [(cs "/*", cs "*/")]⟩),
    (".ts", ⟨[cs "//"], [(cs "/*", cs "*/")]⟩),
    (".tsx", ⟨[cs "//"], [(cs "/*", cs "*/")]⟩),
    (".cjs", ⟨[cs "//"], [(cs "/*", cs "*/")]⟩),
    (".css", ⟨[], [(cs "/*", cs "*/")]⟩),
    (".html", ⟨[], [(cs "<!--", cs "-->")]⟩),
    (".htm", ⟨[], [(cs "<!--", cs "-->")]⟩),
    (".md", ⟨[], [(cs "<!--", cs "-->")]⟩),
    (".yml", ⟨[cs "#"], []⟩),
    (".yaml", ⟨[cs "#"], []⟩),
    (".env", ⟨[cs "#"], []⟩),
    (".example", ⟨[cs "#"], []⟩),
    (".sh", ⟨[cs "#"], []⟩),
    (".bash", ⟨[cs "#"], []⟩),
    (".zsh", ⟨[cs "#"], []⟩),
    (".ps1", ⟨[cs "#"], [(cs "<#", cs "#>")]⟩),
    (".json", ⟨[], []⟩),
    (".txt", ⟨[], []⟩) ]

/-- The filename-keyed registry SPEC_BY_NAME from the source. -/
def SPEC_BY_NAME : List (String × CommentSpec) :=
  [ ("dockerfile", ⟨[cs "#"], []⟩),
    ("makefile", ⟨[cs "#"], []⟩),
    (".gitignore", ⟨[cs "#"], []⟩),
    (".dockerignore", ⟨[cs "#"], []⟩),
    (".env", ⟨[cs "#"], []⟩),
    (".env.example", ⟨[cs "#"], []⟩) ]

/-- The fallback spec returned for unknown file types:
SPEC_BY_EXT.get(ext, \x7b"line": [], "block": []\x7d). -/
def emptySpec : CommentSpec := ⟨[], []⟩

/-- Models Python str.lower, character by character. -/
def lowerStr (s : String) : String := String.mk (s.data.map Char.toLower)

/-- Index of the last occurrence of character `c` in `l`, models
Python str.rfind on a single character. -/
def rfindIdx (c : Char) : List Char → Option Nat
  | [] => none
  | x :: xs =>
    match rfindIdx c xs with
    | some i => some (i + 1)
    | none => if x = c then some 0 else none

/-- Models pathlib PurePath.suffix: the substring of the final path
component from its last dot onward, provided that dot is neither the
first nor the last character; otherwise the empty string. -/
def pySuffix (name : String) : String :=
  let l := name.data
  match rfindIdx (Char.ofNat 46) l with
  | some i => if 0 < i ∧ i < l.length - 1 then String.mk (l.drop i) else ""
  | none => ""

/-- Embeds get_spec from the source: exact lowercased-name lookup first,
then lowercased-extension lookup, then the empty fallback spec.  The
argument is the file's final path component (path.name in the source). -/
def get_spec (name : String) : CommentSpec :=
  match SPEC_BY_NAME.lookup (lowerStr name) with
  | some spec => spec
  | none => (SPEC_BY_EXT.lookup (lowerStr (pySuffix name))).getD emptySpec

/-- The `for start, end in block_comments` loop of count_file: the first
pair in declaration order whose start delimiter occurs in the stripped
line, together with that first-occurrence index. -/
def findBlock : List (List Char × List Char) → List Char → Option (List Char × List Char × Nat)
  | [], _ => none
  | (bstart, bend) :: rest, stripped =>
    match firstIdxOf bstart stripped with
    | some i => some (bstart, bend, i)
    | none => findBlock rest stripped

/-- Embeds the body of the per-line loop of count_file.  Given the spec,
the current in_block_end state (the pending close delimiter, or none) and
the raw line, it returns the line's verdict and the updated state.

Notes on fidelity: the source tests `if in_block_end:`; since in_block_end
is only ever None or the (nonempty) end delimiter of a registry block
pair, Python truthiness coincides with the `Option.isSome` match used
here.  The source's `stripped.split(end, 1)` at the first occurrence of
`end` is rendered as a drop past the index found by `firstIdxOf`. -/
def classifyLine (spec : CommentSpec) (inBlock : Option (List Char)) (l : List Char) :
    LineVerdict × Option (List Char) :=
  let stripped := stripChars l
  if stripped.isEmpty then
    -- if not stripped: blank += 1; continue
    (.blank, inBlock)
  else
    match inBlock with
    | some endDelim =>
      -- if in_block_end: ...
      match firstIdxOf endDelim stripped with
      | some i =>
        -- end in stripped: split once, keep the part after the delimiter
        let afterEnd := stripped.drop (i + endDelim.length)
        if !(stripChars afterEnd).isEmpty then (.code, none) else (.comment, none)
      | none => (.comment, some endDelim)
    | none =>
      -- if line_comments and any(stripped.startswith(p) for p in line_comments)
      if !spec.line.isEmpty && spec.line.any (fun p => p.isPrefixOf stripped) then
        (.comment, none)
      else
        match findBlock spec.block stripped with
        | some (bstart, bend, i) =>
          let before := stripChars (stripped.take i)
          let after := stripped.drop (i + bstart.length)
          if !before.isEmpty then
            -- code precedes the opener: Code, in_block_end untouched
            (.code, none)
          else
            match firstIdxOf bend after with
            | some j =>
              -- end in after: after.split(end, 1)[1].strip()
              let afterEnd := stripChars (after.drop (j + bend.length))
              if !afterEnd.isEmpty then (.code, none) else (.comment, none)
            | none =>
              -- unterminated: comment += 1; in_block_end = end
              (.comment, some bend)
        | none =>
          -- no marker applies at all
          (.code, none)

/-- Adds one line with the given verdict to a (code, comment, blank)
triple of counters. -/
def bump (v : LineVerdict) : Nat × Nat × Nat → Nat × Nat × Nat
  | (c, m, b) =>
    match v with
    | .code => (c + 1, m, b)
    | .comment => (c, m + 1, b)
    | .blank => (c, m, b + 1)

/-- Folds classifyLine over the lines, threading the in_block_end state
and accumulating the three counters. -/
def countFrom (spec : CommentSpec) : Option (List Char) → List (List Char) → Nat × Nat × Nat
  | _, [] => (0, 0, 0)
  | st, l :: rest =>
    let r := classifyLine spec st l
    bump r.1 (countFrom spec r.2 rest)

/-- The core classifier contract of the design: counts for a whole line
sequence under a given spec, starting outside any block comment. -/
def classify (spec : CommentSpec) (lines : List (List Char)) : Nat × Nat × Nat :=
  countFrom spec none lines

/-- Embeds count_file from the source: resolve the spec for the file's
name, then classify its lines.  Returns (code, comment, blank). -/
def count_file (name : String) (lines : List (List Char)) : Nat × Nat × Nat :=
  classify (get_spec name) lines

/-- Embeds is_binary.  The single read the function performs is modelled
by its outcome: `Except.error` when opening or reading raised, or
`Except.ok bytes` giving the file's bytes, of which `f.read(2048)`
yields the first 2048.  The function itself is total: it returns a
Bool in every case and so never propagates an exception. -/
def is_binary (readResult : Except Unit (List UInt8)) : Bool :=
  match readResult with
  | .error _ => true
  | .ok bytes => (bytes.take 2048).contains 0

/-- The default directory skip-set SKIP_DIRS_DEFAULT from the source. -/
def SKIP_DIRS_DEFAULT : List String :=
  [ ".git", ".venv", "venv", "node_modules", "dist", "build", "out",
    ".pytest_cache", "__pycache__", ".mypy_cache", ".ruff_cache",
    ".next", ".turbo", ".idea", ".vscode", "data" ]

/-- Embeds the skip-set construction in main: start from the default
set, remove the --include-dir names (difference_update), then add the
--exclude-dir names (update).  Python sets are modelled by lists up to
membership. -/
def skip_dirs (includeDirs excludeDirs : List String) : List String :=
  (SKIP_DIRS_DEFAULT.filter (fun d => !includeDirs.contains d)) ++ excludeDirs

/-- Per-extension accumulated totals, one value of ext_stats in main. -/
structure ExtStats where
  files : Nat
  code : Nat
  comment : Nat
  blank : Nat
deriving DecidableEq, Repr

/-- The report's sort key for one (extension, stats) row: that
extension's total line count. -/
def sort_key (item : String × ExtStats) : Nat :=
  item.2.code + item.2.comment + item.2.blank

/-- all_code in main: sum of the code counters over all extensions. -/
def all_code (rows : List (String × ExtStats)) : Nat :=
  (rows.map (fun r => r.2.code)).sum

/-- all_comment in main. -/
def all_comment (rows : List (String × ExtStats)) : Nat :=
  (rows.map (fun r => r.2.comment)).sum

/-- all_blank in main. -/
def all_blank (rows : List (String × ExtStats)) : Nat :=
  (rows.map (fun r => r.2.blank)).sum

/-- all_lines in main: the reported grand total line count. -/
def all_lines (rows : List (String × ExtStats)) : Nat :=
  all_code rows + all_comment rows + all_blank rows

/-- The row order emitted by the report: sorted(ext_stats.items(),
key=sort_key, reverse=True), a stable sort descending by sort_key. -/
def reportRows (rows : List (String × ExtStats)) : List (String × ExtStats) :=
  rows.mergeSort (fun a b => decide (sort_key b ≤ sort_key a))

/-
Helper lemmas shared by the claim theorems below.
-/

/-- Under the empty fallback spec, a line is Blank when its stripped form
is empty and Code otherwise, and the block state stays clear. -/
theorem classifyLine_emptySpec (l : List Char) :
    classifyLine emptySpec none l =
      (if (stripChars l).isEmpty then LineVerdict.blank else LineVerdict.code, none) := by
  by_cases h : (stripChars l).isEmpty <;>
    simp [classifyLine, emptySpec, findBlock, h]

/-- Under the empty fallback spec, the classifier counts every line whose
stripped form is non-empty as Code and every other line as Blank, with no
Comment lines. -/
theorem classify_emptySpec (lines : List (List Char)) :
    classify emptySpec lines =
      (lines.countP (fun l => !(stripChars l).isEmpty), 0,
       lines.countP (fun l => (stripChars l).isEmpty)) := by
  induction lines with
  | nil => rfl
  | cons l rest ih =>
    simp only [classify] at ih ⊢
    by_cases h : (stripChars l).isEmpty <;>
      simp [countFrom, classifyLine_emptySpec, h, bump, ih, List.countP_cons]

/-- The three counters of countFrom always sum to the number of lines,
whatever the starting block state. -/
theorem countFrom_sum (spec : CommentSpec) (st : Option (List Char))
    (lines : List (List Char)) :
    (countFrom spec st lines).1 + (countFrom spec st lines).2.1 +
      (countFrom spec st lines).2.2 = lines.length := by
  induction lines generalizing st with
  | nil => rfl
  | cons l rest ih =>
    have h := ih (classifyLine spec st l).2
    rcases hc : countFrom spec (classifyLine spec st l).2 rest with ⟨c, m, b⟩
    rcases hv : (classifyLine spec st l).1 with _ | _ | _ <;>
      simp [countFrom, bump, hv, hc] <;> simp [hc] at h <;> omega

/-
Claim theorems.
-/

/-- Claim C1: a line that trims to empty is classified Blank with the
block state unchanged, for every spec and every pending state, including
an active in_block state: the blank check runs before the block-state
check on every line. -/
theorem blank_line_always_blank (spec : CommentSpec) (st : Option (List Char))
    (l : List Char) (h : stripChars l = []) :
    classifyLine spec st l = (LineVerdict.blank, st) := by
  simp [classifyLine, h]

/-- Witness for claim C1: an all-whitespace line inside an unterminated
CSS block comment is classified Blank and keeps the pending state. -/
theorem blank_line_always_blank_witness :
    classifyLine (get_spec "style.css") (some (cs "*/")) (cs "   ") =
      (LineVerdict.blank, some (cs "*/")) :=
  blank_line_always_blank (get_spec "style.css") (some (cs "*/")) (cs "   ") (by decide)

/-- Claim C2 counterexample: with the CSS spec (block pair /* and */), an
all-whitespace line while the classifier is inside an unterminated block
comment is classified Blank, not Comment, and the three-line file
consisting of the opener, a whitespace line, and the closer counts as
code=0, comment=2, blank=1 rather than comment=3. -/
theorem blank_in_block_counterexample :
    classifyLine (get_spec "style.css") (some (cs "*/")) (cs "  ") =
      (LineVerdict.blank, some (cs "*/")) ∧
    (classifyLine (get_spec "style.css") (some (cs "*/")) (cs "  ")).1 ≠
      LineVerdict.comment ∧
    classify (get_spec "style.css") [cs "/*", cs "  ", cs "*/"] = (0, 2, 1) := by
  decide

/-- Claim C2 as amended: a blank (all-whitespace) line occurring while
the classifier is inside an unterminated block comment is counted as
Blank, not Comment — blank detection takes precedence over the
continuation state. -/
theorem blank_in_block_is_blank (spec : CommentSpec) (endDelim l : List Char)
    (h : stripChars l = []) :
    (classifyLine spec (some endDelim) l).1 = LineVerdict.blank := by
  simp [classifyLine, h]

/-- Witness for amended claim C2. -/
theorem blank_in_block_is_blank_witness :
    (classifyLine (get_spec "style.css") (some (cs "*/")) (cs "  ")).1 =
      LineVerdict.blank :=
  blank_in_block_is_blank (get_spec "style.css") (cs "*/") (cs "  ") (by decide)

/-- Claim C3: under the CSS spec, whose block pairs consist of the pair
/* and */, the three-line file "/* start", "middle", "end */ tail" counts
as code=1, comment=2, blank=0: opener and continuation lines are Comment,
and the closer line is Code because the trimmed text after the close
delimiter is non-empty. -/
theorem block_close_with_tail_example :
    (get_spec "style.css").block = [(cs "/*", cs "*/")] ∧
    classify (get_spec "style.css") [cs "/* start", cs "middle", cs "end */ tail"] =
      (1, 2, 0) := by
  decide

/-- Claim C4: for a line processed outside any block comment that matches
no line-comment prefix, if the block scan finds a pair whose start
delimiter is preceded by non-empty trimmed text, the line is Code and the
block state stays clear, regardless of what follows the opener. -/
theorem code_before_opener_no_block (spec : CommentSpec) (l : List Char)
    (bstart bend : List Char) (i : Nat)
    (hne : (stripChars l).isEmpty = false)
    (hlc : spec.line.any (fun p => p.isPrefixOf (stripChars l)) = false)
    (hfb : findBlock spec.block (stripChars l) = some (bstart, bend, i))
    (hbefore : (stripChars ((stripChars l).take i)).isEmpty = false) :
    classifyLine spec none l = (LineVerdict.code, none) := by
  simp [classifyLine, hne, hlc, hfb, hbefore]

/-- Witness for claim C4: code followed by an unterminated block opener
under the TypeScript spec is Code with no continuation state. -/
theorem code_before_opener_no_block_witness :
    classifyLine (get_spec "app.ts") none (cs "x = 1; /* hmm") =
      (LineVerdict.code, none) :=
  code_before_opener_no_block (get_spec "app.ts") (cs "x = 1; /* hmm")
    (cs "/*") (cs "*/") 7 (by decide) (by decide) (by decide) (by decide)

/-- Claim C5: a file whose lowercased name has no SPEC_BY_NAME entry and
whose lowercased extension has no SPEC_BY_EXT entry resolves to the empty
spec, and classifying any line sequence under it yields zero Comment
lines, with every line Code when its trimmed form is non-empty and Blank
otherwise. -/
theorem unknown_type_empty_spec_all_code (name : String) (lines : List (List Char))
    (h1 : SPEC_BY_NAME.lookup (lowerStr name) = none)
    (h2 : SPEC_BY_EXT.lookup (lowerStr (pySuffix name)) = none) :
    get_spec name = emptySpec ∧
    count_file name lines =
      (lines.countP (fun l => !(stripChars l).isEmpty), 0,
       lines.countP (fun l => (stripChars l).isEmpty)) := by
  have hspec : get_spec name = emptySpec := by
    simp [get_spec, h1, h2]
  exact ⟨hspec, by simp [count_file, hspec, classify_emptySpec]⟩

/-- Witness for claim C5: the unknown extension .xyz falls back to the
empty spec and a two-line file counts as one Code and one Blank line. -/
theorem unknown_type_empty_spec_all_code_witness :
    get_spec "foo.xyz" = emptySpec ∧
    count_file "foo.xyz" [cs "x", cs "  "] = (1, 0, 1) := by
  have h := unknown_type_empty_spec_all_code "foo.xyz" [cs "x", cs "  "]
    (by decide) (by decide)
  exact ⟨h.1, h.2.trans (by decide)⟩

/-- Claim C6: for every spec and every line sequence, the code, comment
and blank counters returned by the classifier sum to exactly the number
of lines processed: each line increments exactly one counter. -/
theorem counts_sum_to_line_count (spec : CommentSpec) (lines : List (List Char)) :
    (classify spec lines).1 + (classify spec lines).2.1 + (classify spec lines).2.2 =
      lines.length :=
  countFrom_sum spec none lines

/-- Claim C7: is_binary returns true on a failed read (it swallows the
exception and reports binary, never propagating); on a successful read
it returns true exactly when a null byte occurs in the first 2048 bytes;
and its result depends only on that 2048-byte prefix. -/
theorem is_binary_spec :
    (∀ e : Unit, is_binary (Except.error e) = true) ∧
    (∀ bs : List UInt8, is_binary (Except.ok bs) = true ↔ (0 : UInt8) ∈ bs.take 2048) ∧
    (∀ bs bs2 : List UInt8, bs.take 2048 = bs2.take 2048 →
      is_binary (Except.ok bs) = is_binary (Except.ok bs2)) := by
  refine ⟨fun e => rfl, fun bs => ?_, fun bs bs2 h => ?_⟩
  · simp [is_binary]
  · simp [is_binary, h]

/-- Witness for claim C7: a null byte placed just past the 2048-byte
bound does not change the verdict, and a failed read reports binary. -/
theorem is_binary_spec_witness :
    is_binary (Except.ok (List.replicate 3000 (1 : UInt8))) =
      is_binary (Except.ok (List.replicate 2048 (1 : UInt8) ++ [0])) ∧
    is_binary (Except.error ()) = true := by
  refine ⟨is_binary_spec.2.2 _ _ ?_, is_binary_spec.1 ()⟩
  rw [List.take_replicate,
    List.take_append_of_le_length (le_of_eq (List.length_replicate 2048 (1 : UInt8)).symm),
    List.take_replicate, Nat.min_self, Nat.min_eq_left (by norm_num)]

/-- Claim C8: the report's grand total equals the sum over all extension
rows of that row's code+comment+blank total, and the emitted rows are
sorted in descending order of that per-extension total. -/
theorem report_totals_and_sorted (rows : List (String × ExtStats)) :
    all_lines rows = (rows.map sort_key).sum ∧
    List.Pairwise (fun a b => sort_key b ≤ sort_key a) (reportRows rows) := by
  constructor
  · simp only [show sort_key = fun item => item.2.code + item.2.comment + item.2.blank
      from rfl, List.sum_map_add, all_lines, all_code, all_comment, all_blank]
  · have htrans : ∀ a b c : String × ExtStats,
        decide (sort_key b ≤ sort_key a) = true →
        decide (sort_key c ≤ sort_key b) = true →
        decide (sort_key c ≤ sort_key a) = true := by
      intro a b c hab hbc
      simp at hab hbc ⊢
      omega
    have htotal : ∀ a b : String × ExtStats,
        (decide (sort_key b ≤ sort_key a) || decide (sort_key a ≤ sort_key b)) = true := by
      intro a b
      simp [Nat.le_total]
    have h := List.sorted_mergeSort htrans htotal rows
    exact h.imp fun hab => by simpa using hab

/-- Claim C9: when the pending close delimiter occurs in a non-blank
line, the block state is cleared unconditionally and the verdict depends
only on whether trimmed text remains after the first occurrence of the
close delimiter — the remainder is never scanned for a new opener, so
the spec plays no role and a block re-opened after the close leaves no
continuation state. -/
theorem block_close_clears_state (spec : CommentSpec) (endDelim l : List Char) (i : Nat)
    (hne : (stripChars l).isEmpty = false)
    (hfind : firstIdxOf endDelim (stripChars l) = some i) :
    classifyLine spec (some endDelim) l =
      (if !(stripChars ((stripChars l).drop (i + endDelim.length))).isEmpty then
         LineVerdict.code else LineVerdict.comment, none) := by
  simp [classifyLine, hne, hfind]
  by_cases h : stripChars (List.drop (i + endDelim.length) (stripChars l)) = [] <;>
    simp [h]

/-- Witness for claim C9: the line "*/ /*" while inside a block closes
the comment, counts as Code, and leaves no continuation state despite
the new opener after the close. -/
theorem block_close_clears_state_witness :
    classifyLine (get_spec "a.css") (some (cs "*/")) (cs "*/ /*") =
      (LineVerdict.code, none) := by
  have h := block_close_clears_state (get_spec "a.css") (cs "*/") (cs "*/ /*") 0
    (by decide) (by decide)
  exact h.trans (by decide)

/-- Claim C10: a directory name passed to both --include-dir and
--exclude-dir ends up in the skip-set: included names are removed from
the default set first, then excluded names are added. -/
theorem exclude_dir_overrides_include (n : String)
    (includeDirs excludeDirs : List String)
    (hi : n ∈ includeDirs) (he : n ∈ excludeDirs) :
    n ∈ skip_dirs includeDirs excludeDirs := by
  simp [skip_dirs, List.mem_append]
  exact Or.inr he

/-- Witness for claim C10: the name data passed to both options is in
the resulting skip-set. -/
theorem exclude_dir_overrides_include_witness :
    "data" ∈ skip_dirs ["data"] ["data"] :=
  exclude_dir_overrides_include "data" ["data"] ["data"] (by decide) (by decide)
